import Mathlib

/-!
Shallow embedding of the GWASProtocol repository components that the claims
refer to: the utility library (`gwas/utils.py`), the compressed stream I/O
and pickle cache (`gwas/compression/pipe.py`), the memory-bounded chunking
loop of `GwasCommand.run` (`gwas/score/command.py`), and the plotting worker
(`gwas/plots/worker.py`).

Python machine values are modelled as follows: arbitrary-precision Python
ints as `Int`/`Nat`, floating-point dosage values and cutoffs as `Rat`
(exact arithmetic; the float comparisons in the source are idealised to
exact rational comparisons), raised exceptions as an `Except PyExc` result,
and `None` as an explicit constructor of the modelled Python value type.
-/

/-- Equality of fallible results is decidable componentwise (needed to
evaluate the embedded functions on concrete inputs). -/
instance {ε α : Type} [DecidableEq ε] [DecidableEq α] : DecidableEq (Except ε α)
  | .error e, .error f => decidable_of_iff (e = f) (by simp)
  | .error _, .ok _ => .isFalse (by simp)
  | .ok _, .error _ => .isFalse (by simp)
  | .ok a, .ok b => decidable_of_iff (a = b) (by simp)

/-- The Python exception classes raised by the embedded code. -/
inductive PyExc
  | valueError (msg : String)
  | keyError (key : String)
  | zeroDivisionError
  | unpicklingError
  | eofError
deriving DecidableEq

/- ----------------------------------------------------------------- -/
/-  gwas/utils.py                                                     -/
/- ----------------------------------------------------------------- -/

/-- A chromosome identifier as passed around by the Python code:
either a Python `int` or a Python `str`. -/
inductive Chromosome
  | int (n : Int)
  | str (s : String)
deriving DecidableEq

/-- `chromosome_to_int` from `gwas/utils.py` (lines 11-16):
`if chromosome == "X": return 23; elif isinstance(chromosome, int):
return chromosome; raise ValueError(...)`.  A Python int never compares
equal to the string `"X"`, so the first test only fires on the string. -/
def chromosome_to_int (c : Chromosome) : Except PyExc Int :=
  if c = Chromosome.str "X" then .ok 23
  else
    match c with
    | .int n => .ok n
    | .str _ => .error (.valueError "Unknown chromsome")

/-- The integer sort key produced by `chromosome_to_int` on valid inputs
(used as `key=chromosome_to_int` for sorting); 0 is a dummy for the
error case, which never occurs on valid chromosomes. -/
def chromosome_rank (c : Chromosome) : Int :=
  (chromosome_to_int c).toOption.getD 0

/-- Arithmetic mean of a row, as computed by `row.mean()`. -/
def list_mean (row : List Rat) : Rat :=
  row.sum / row.length

/-- Population variance of a row, as computed by `row.var()`
(mean of squared deviations from the mean). -/
def list_var (row : List Rat) : Rat :=
  ((row.map fun x => (x - list_mean row) ^ 2).sum) / row.length

/-- `np.isclose(a, b)` with numpy's default tolerances
`rtol = 1e-5`, `atol = 1e-8`: true iff `|a - b| <= atol + rtol * |b|`. -/
def np_isclose (a b : Rat) : Bool :=
  decide (|a - b| ≤ 1 / 100000000 + (1 / 100000) * |b|)

/-- The `MinorAlleleFrequencyCutoff` dataclass from `gwas/utils.py`
(default cutoff 0.05 = 1/20). -/
structure MinorAlleleFrequencyCutoff where
  minor_allele_frequency_cutoff : Rat := 1 / 20
deriving DecidableEq

/-- `MinorAlleleFrequencyCutoff.__call__` from `gwas/utils.py` (lines 27-34):
`mean = row.mean(); maf = mean / 2;
return not (maf < cutoff or (1 - maf) < cutoff or np.isclose(row.var(), 0))`. -/
def MinorAlleleFrequencyCutoff.call
    (self : MinorAlleleFrequencyCutoff) (row : List Rat) : Bool :=
  let mean := list_mean row
  let minor_allele_frequency := mean / 2
  !(decide (minor_allele_frequency < self.minor_allele_frequency_cutoff)
    || decide ((1 - minor_allele_frequency) < self.minor_allele_frequency_cutoff)
    || np_isclose (list_var row) 0)

/- ----------------------------------------------------------------- -/
/-  gwas/score/command.py : the chunking loop of GwasCommand.run      -/
/- ----------------------------------------------------------------- -/

/-- The two attributes of a `VariableCollection` that the chunking loop in
`GwasCommand.run` reads (`vc.sample_count`, `vc.phenotype_count`). -/
structure VariableCollection where
  sample_count : Nat
  phenotype_count : Nat
deriving DecidableEq

/-- The predicted memory cost (in float64 elements) that the loop body adds
to `chunk_size` for one collection (`command.py` lines 225-226):
`len(self.vcf_samples) * vc.sample_count + 2 * vc.sample_count * vc.phenotype_count`. -/
def predicted_cost (n_vcf_samples : Nat) (vc : VariableCollection) : Nat :=
  n_vcf_samples * vc.sample_count + 2 * (vc.sample_count * vc.phenotype_count)

/-- Total predicted cost of a list of collections. -/
def chunk_cost (n_vcf_samples : Nat) (c : List VariableCollection) : Nat :=
  (c.map (predicted_cost n_vcf_samples)).sum

/-- The `while len(variable_collections) > 0` loop of `GwasCommand.run`
(`command.py` lines 221-232), already applied to the reversed list:
Python's `variable_collections.pop()` removes the LAST element, so the
loop consumes the list back to front; here the first argument is the
reversed list consumed front to back.

Each iteration appends the popped collection to `current_chunk`, adds its
predicted cost to `chunk_size` (which is NEVER reset when a chunk closes),
and evaluates `chunk_size / available_size > 0.5`.  The true-float division
is idealised to the exact comparison `2 * chunk_size > available_size`;
when `available_size = 0` the division raises `ZeroDivisionError`. -/
def chunk_loop (n_vcf_samples available_size : Nat) :
    List VariableCollection → List VariableCollection → Nat →
    List (List VariableCollection) →
    Except PyExc (List (List VariableCollection))
  | [], current_chunk, _chunk_size, chunks =>
      .ok (chunks ++ [current_chunk])
  | vc :: rest, current_chunk, chunk_size, chunks =>
      if available_size = 0 then .error PyExc.zeroDivisionError
      else if available_size < 2 * (chunk_size + predicted_cost n_vcf_samples vc) then
        chunk_loop n_vcf_samples available_size rest []
          (chunk_size + predicted_cost n_vcf_samples vc)
          (chunks ++ [current_chunk ++ [vc]])
      else
        chunk_loop n_vcf_samples available_size rest (current_chunk ++ [vc])
          (chunk_size + predicted_cost n_vcf_samples vc) chunks

/-- The chunking phase of `GwasCommand.run` (`command.py` lines 214-232):
`available_size = sw.unallocated_size // 8` (itemsize of float64), then the
loop above over a copy of the variable-collection list, popping from the
end (hence `vcs.reverse`), starting from an empty current chunk and
`chunk_size = 0`, and finally appending the (possibly empty) last chunk. -/
def run_chunking (n_vcf_samples unallocated_size : Nat)
    (vcs : List VariableCollection) :
    Except PyExc (List (List VariableCollection)) :=
  chunk_loop n_vcf_samples (unallocated_size / 8) vcs.reverse [] 0 []

/-- Modelled from the spec: the reset variant of the chunking loop that the
claim about per-chunk accumulation describes — identical to `chunk_loop`
except that when a chunk is closed the accumulated predicted cost restarts
at zero for the next chunk.  Used only to compare the source behaviour
against the claimed behaviour. -/
def chunk_loop_reset (n_vcf_samples available_size : Nat) :
    List VariableCollection → List VariableCollection → Nat →
    List (List VariableCollection) →
    Except PyExc (List (List VariableCollection))
  | [], current_chunk, _chunk_size, chunks =>
      .ok (chunks ++ [current_chunk])
  | vc :: rest, current_chunk, chunk_size, chunks =>
      if available_size = 0 then .error PyExc.zeroDivisionError
      else if available_size < 2 * (chunk_size + predicted_cost n_vcf_samples vc) then
        chunk_loop_reset n_vcf_samples available_size rest [] 0
          (chunks ++ [current_chunk ++ [vc]])
      else
        chunk_loop_reset n_vcf_samples available_size rest (current_chunk ++ [vc])
          (chunk_size + predicted_cost n_vcf_samples vc) chunks

/-- Modelled from the spec: whole chunking phase under the claimed
reset-per-chunk semantics. -/
def run_chunking_reset (n_vcf_samples unallocated_size : Nat)
    (vcs : List VariableCollection) :
    Except PyExc (List (List VariableCollection)) :=
  chunk_loop_reset n_vcf_samples (unallocated_size / 8) vcs.reverse [] 0 []

/- ----------------------------------------------------------------- -/
/-  gwas/compression/pipe.py : compressed readers                     -/
/- ----------------------------------------------------------------- -/

/-- Characters of the last path component (the part after the last `/`),
as in `pathlib.Path(...).name`. -/
def path_name_chars (s : List Char) : List Char :=
  s.foldl (fun acc c => if c = '/' then [] else acc ++ [c]) []

/-- `pathlib.Path(p).suffix`: the extension of the final component,
including the leading dot; empty when the name has no dot or only a
leading dot (`name[i:]` for `i = name.rfind('.')` when `i > 0`, else `''`). -/
def path_suffix (s : String) : String :=
  let name := path_name_chars s.data
  let r := name.reverse
  let extRev := r.takeWhile (fun c => c ≠ '.')
  match r.dropWhile (fun c => c ≠ '.') with
  | [] => ""
  | _ :: before => if before = [] then "" else String.mk ('.' :: extRev.reverse)

/-- What `CompressedReader.__enter__` returns: either a directly opened
file handle (with the Python `open` mode string actually used), or a
spawned decompression subprocess (its argv, the `text=` flag and the
`bufsize=` value passed to `Popen`). -/
inductive ReaderStream
  | file (mode : String)
  | process (argv : List String) (text : Bool) (bufsize : Int)
deriving DecidableEq

/-- The decompression command table of `CompressedReader.__enter__`
(`pipe.py` lines 27-33); a missing key raises `KeyError`. -/
def decompress_command : String → Option (List String)
  | ".zst" => some ["zstd", "--long=31", "-c", "-d"]
  | ".lrz" => some ["lrzcat", "--quiet"]
  | ".gz" => some ["bgzip", "-c", "-d"]
  | ".xz" => some ["xzcat"]
  | ".bz2" => some ["bzip2", "-c", "-d"]
  | _ => Option.none

/-- `CompressedReader.__enter__` (`pipe.py` lines 22-53).  `which_fn`
models `shutil.which` (environment-dependent executable lookup;
`unwrap_which` raises a bare `ValueError` when it returns `None`).
For suffix `.vcf` or `.txt` the file is opened directly with
`open(mode="rt")` — unconditionally text mode, whatever `is_text` was
requested.  Otherwise the command template is looked up, its executable
resolved, and a subprocess spawned with `text=is_text` and
`bufsize = 1 if is_text else -1`, argv ending in the file path. -/
def CompressedReader.enter (which_fn : String → Option String)
    (file_path : String) (is_text : Bool) : Except PyExc ReaderStream :=
  if path_suffix file_path = ".vcf" ∨ path_suffix file_path = ".txt" then
    .ok (.file "rt")
  else
    match decompress_command (path_suffix file_path) with
    | Option.none => .error (.keyError (path_suffix file_path))
    | some cmd =>
      match which_fn (cmd.headD "") with
      | Option.none => .error (.valueError "")
      | some exe =>
          .ok (.process ((exe :: cmd.tail) ++ [file_path]) is_text
            (if is_text then 1 else -1))

/- ----------------------------------------------------------------- -/
/-  gwas/compression/pipe.py : pickle cache                           -/
/- ----------------------------------------------------------------- -/

/-- A picklable Python value, as stored in the cache.  `none` is the
Python value `None`. -/
inductive PyVal
  | none
  | bool (b : Bool)
  | int (n : Int)
  | str (s : String)
deriving DecidableEq

/-- The on-disk state of one `{key}.zst` cache file, classified by how
`CompressedBytesReader` + `pickle.load` behave on its bytes.

`stored v` is a well-formed entry written by `save_to_cache`.
The two corrupt cases are modelled from the documented contract of
`pickle.load` (the pickle module is outside the provided sources): on
corrupt data it raises `UnpicklingError`, but "other exceptions may also
be raised during unpickling, including (but not necessarily limited to)
AttributeError, EOFError, ImportError, and IndexError" — in particular a
truncated or empty stream (e.g. what the `zstd -d` subprocess produces
for a garbage `.zst` file) raises `EOFError`. -/
inductive CacheFile
  | stored (v : PyVal)
  | corruptUnpickling
  | corruptTruncated
deriving DecidableEq

/-- A cache directory: the mapping from key to the state of its
`{key}.zst` file (`Option.none` = the file does not exist). -/
def CacheState : Type := String → Option CacheFile

/-- `load_from_cache` (`pipe.py` lines 144-153).  Result on success is the
loaded value paired with whether the corrupt-data warning was logged.
If the file does not exist, returns `None` (the absent-value sentinel).
Otherwise deserializes; the only exception class caught is
`pickle.UnpicklingError` (logged as a warning, `None` returned) — a
deserialization failure of any other class, such as `EOFError`,
propagates to the caller. -/
def load_from_cache (fs : CacheState) (key : String) :
    Except PyExc (PyVal × Bool) :=
  match fs key with
  | Option.none => .ok (PyVal.none, false)
  | some (.stored v) => .ok (v, false)
  | some .corruptUnpickling => .ok (PyVal.none, true)
  | some .corruptTruncated => .error .eofError

/-- `save_to_cache` (`pipe.py` lines 156-158): writes the pickled,
compressed value to `{key}.zst`, overwriting any previous state. -/
def save_to_cache (fs : CacheState) (key : String) (value : PyVal) :
    CacheState :=
  fun k => if k = key then some (.stored value) else fs k

/- ----------------------------------------------------------------- -/
/-  gwas/plots/worker.py                                              -/
/- ----------------------------------------------------------------- -/

/-- The two columns of the axis-metadata table that
`create_dataframe_single_chr` reads (`metadata.chromosome_int`,
`metadata.position`). -/
structure AxisMetadataRow where
  chromosome_int : Int
  position : Int
deriving DecidableEq

/-- One row of the resulting DataFrame: columns `SNP`, `CHR`, `BP`, `P`. -/
structure ResultRow where
  snp : String
  chr : Int
  bp : Int
  p : Rat
deriving DecidableEq

/-- The error message of the row-count check in
`create_dataframe_single_chr` (`worker.py` lines 38-41). -/
def length_mismatch_msg : String :=
  "The length of b2_array does not match the length of the metadata."

/-- Modelled from the spec: `find_phenotype_index` lives in
`gwas.plots.helpers`, which is not among the provided sources.  Per spec
§4.4 step 4 it resolves the phenotype label to its column-index pair
`(u_stat_idx, v_stat_idx)` within the phenotype list's fixed
2-columns-per-phenotype layout, failing when the label is absent. -/
def find_phenotype_index (phenotype_label : String)
    (phenotypes_list : List String) : Except PyExc (Nat × Nat) :=
  match phenotypes_list.findIdx? (fun s => s = phenotype_label) with
  | Option.none => .error (.valueError "phenotype label not found")
  | some i => .ok (2 * i, 2 * i + 1)

/-- `create_dataframe_single_chr` (`worker.py` lines 12-73), taking the
already-loaded file contents: `metadata` and `phenotypes_list` are the two
components of the axis metadata, `b2_array` the score array (list of
rows).  `chi2` abstracts the external helper `chi2_pvalue` (one p-value
per (U, V) pair).  First the row-count check (`ValueError` on mismatch),
then the label is resolved, the 2-column block `[u, v]` sliced, p-values
computed, and one result row built per marker with the placeholder SNP id
`"rs0000000"`. -/
def create_dataframe_single_chr (chi2 : Rat → Rat → Rat)
    (metadata : List AxisMetadataRow) (phenotypes_list : List String)
    (b2_array : List (List Rat)) (phenotype_label : String) :
    Except PyExc (List ResultRow) :=
  if b2_array.length ≠ metadata.length then
    .error (.valueError length_mismatch_msg)
  else
    match find_phenotype_index phenotype_label phenotypes_list with
    | .error e => .error e
    | .ok (u_stat_idx, v_stat_idx) =>
      let stats := b2_array.map fun row =>
        (row.drop u_stat_idx).take (v_stat_idx + 1 - u_stat_idx)
      let p_values := stats.map fun s => chi2 (s.getD 0 0) (s.getD 1 0)
      .ok (List.zipWith
        (fun m p => { snp := "rs0000000", chr := m.chromosome_int,
                      bp := m.position, p := p })
        metadata p_values)

/-- `pool.map(f, tasks)`: applies `f` to every task in order; the first
raised exception propagates and aborts the whole batch. -/
def mapExcept (f : α → Except PyExc β) : List α → Except PyExc (List β)
  | [] => .ok []
  | a :: l =>
    match f a with
    | .error e => .error e
    | .ok b =>
      match mapExcept f l with
      | .error e => .error e
      | .ok bs => .ok (b :: bs)

/-- The task list built by `create_dataframe_all_chr` (`worker.py` lines
84-92): `CHROMOSOMES = list(range(1, 23)) + ["X"]` and, per chromosome
`c`, the triple of score path `{score_path}/chr{c}.score.b2array`,
metadata path `{metadata_path}/chr{c}.score.axis-metadata.pkl.zst` and
the phenotype label. -/
def all_chr_tasks (score_path metadata_path label : String) :
    List (String × String × String) :=
  (((List.range 22).map fun i => toString (i + 1)) ++ ["X"]).map fun c =>
    (score_path ++ "/" ++ ("chr" ++ c ++ ".score.b2array"),
     metadata_path ++ "/" ++ ("chr" ++ c ++ ".score.axis-metadata.pkl.zst"),
     label)

/-- `create_dataframe_all_chr` (`worker.py` lines 76-105).  `loader`
abstracts the file-loading composed with `create_dataframe_single_chr`
that the process pool runs per task; `pool.map` preserves task order, so
the result is the order-preserving concatenation of the 23
per-chromosome tables. -/
def create_dataframe_all_chr
    (loader : String × String × String → Except PyExc (List ResultRow))
    (score_path metadata_path label : String) :
    Except PyExc (List ResultRow) :=
  match mapExcept loader (all_chr_tasks score_path metadata_path label) with
  | .error e => .error e
  | .ok dfs => .ok dfs.flatten

/- ----------------------------------------------------------------- -/
/-  Theorems                                                          -/
/- ----------------------------------------------------------------- -/

/-- C7: `chromosome_to_int` maps every Python int to itself and `"X"` to
23, so the ranks of 1, 2, …, 22, "X" are strictly increasing; every
input that is neither an int nor the literal `"X"` fails with
`ValueError`. -/
theorem chromosome_to_int_spec :
    (∀ n : Int, chromosome_to_int (.int n) = .ok n)
    ∧ chromosome_to_int (.str "X") = .ok 23
    ∧ (∀ n m : Int, 1 ≤ n → n < m → m ≤ 22 →
        chromosome_rank (.int n) < chromosome_rank (.int m)
          ∧ chromosome_rank (.int m) < chromosome_rank (.str "X"))
    ∧ (∀ s : String, s ≠ "X" →
        chromosome_to_int (.str s) = .error (.valueError "Unknown chromsome")) := by
  refine ⟨fun n => rfl, rfl, fun n m h1 hnm hm => ?_, fun s hs => ?_⟩
  · refine ⟨?_, ?_⟩ <;>
      simp [chromosome_rank, chromosome_to_int, Except.toOption] <;> omega
  · simp [chromosome_to_int, hs]

/-- Witness for C7 at the concrete invalid input `"chr1"`. -/
theorem chromosome_to_int_spec_witness :
    chromosome_to_int (.str "chr1") = .error (.valueError "Unknown chromsome") :=
  chromosome_to_int_spec.2.2.2 "chr1" (by decide)

/-- C10: `save_to_cache` followed by `load_from_cache` on the same key
returns the saved value (with no warning) for every value; saving the
Python value `None` produces a load result identical to loading a key
whose cache file does not exist, so a cached `None` is indistinguishable
from a cache miss. -/
theorem cache_none_sentinel_roundtrip :
    ∀ (fs : CacheState) (key : String) (value : PyVal),
      load_from_cache (save_to_cache fs key value) key = .ok (value, false)
      ∧ load_from_cache (save_to_cache fs key PyVal.none) key
          = load_from_cache (fun _ => Option.none) key
      ∧ load_from_cache (fun _ => Option.none) key = .ok (PyVal.none, false) := by
  intro fs key value
  refine ⟨?_, ?_, rfl⟩ <;> simp [load_from_cache, save_to_cache]

/-- C3 counterexample: a `{key}.zst` file whose bytes fail to deserialize
with `EOFError` (e.g. truncated or garbage data) makes `load_from_cache`
propagate the exception instead of returning the absent-value sentinel:
only `pickle.UnpicklingError` is caught. -/
theorem load_from_cache_eoferror_escapes :
    load_from_cache
      (fun k => if k = "key" then some CacheFile.corruptTruncated else Option.none)
      "key" = .error PyExc.eofError := by
  simp [load_from_cache]

/-- C3 (amended): when the corrupt bytes fail with `pickle.UnpicklingError`,
`load_from_cache` logs the warning and returns the absent-value sentinel;
a missing file also yields the sentinel (without a warning); but a
deserialization failure of any other exception class (such as `EOFError`)
propagates to the caller. -/
theorem load_from_cache_unpickling_recovered :
    ∀ (fs : CacheState) (key : String),
      (fs key = some CacheFile.corruptUnpickling →
        load_from_cache fs key = .ok (PyVal.none, true))
      ∧ (fs key = Option.none →
        load_from_cache fs key = .ok (PyVal.none, false))
      ∧ (fs key = some CacheFile.corruptTruncated →
        load_from_cache fs key = .error PyExc.eofError) := by
  intro fs key
  refine ⟨fun h => ?_, fun h => ?_, fun h => ?_⟩ <;> simp [load_from_cache, h]

/-- Witness for the amended C3 at a concrete cache state. -/
theorem load_from_cache_unpickling_recovered_witness :
    load_from_cache (fun _ => some CacheFile.corruptUnpickling) "k"
      = .ok (PyVal.none, true) :=
  (load_from_cache_unpickling_recovered
    (fun _ => some CacheFile.corruptUnpickling) "k").1 rfl

/-- C4 counterexample: on a `.txt` path the binary-mode reader
(`CompressedBytesReader`, which passes `is_text = false`) still opens the
file with mode `"rt"` — a text stream, not the requested binary stream. -/
theorem reader_text_mode_counterexample :
    CompressedReader.enter (fun _ => Option.none) "sample.txt" false
      = .ok (ReaderStream.file "rt")
    ∧ CompressedReader.enter (fun _ => Option.none) "sample.txt" false
      ≠ .ok (ReaderStream.file "rb") := by
  exact ⟨by decide, by decide⟩

/-- C4 (amended): for every path whose suffix is `.vcf` or `.txt`, the
reader opens the file directly — no subprocess — but always in text mode
`"rt"`, regardless of the requested text/binary flag. -/
theorem reader_direct_text_mode :
    ∀ (which_fn : String → Option String) (file_path : String) (is_text : Bool),
      (path_suffix file_path = ".vcf" ∨ path_suffix file_path = ".txt") →
      CompressedReader.enter which_fn file_path is_text
        = .ok (ReaderStream.file "rt") := by
  intro wf p b h
  unfold CompressedReader.enter
  rw [if_pos h]

/-- Witness for the amended C4 at a concrete `.vcf` path. -/
theorem reader_direct_text_mode_witness :
    CompressedReader.enter (fun _ => Option.none) "data/sample.vcf" true
      = .ok (ReaderStream.file "rt") :=
  reader_direct_text_mode (fun _ => Option.none) "data/sample.vcf" true
    (Or.inl (by decide))

/-- C8: the minor-allele-frequency filter returns `false` (exclude) iff
`mean/2 < cutoff`, or `1 - mean/2 < cutoff`, or the row's variance is
numerically zero (within numpy's `isclose` tolerance `1e-8` of zero);
with the default cutoff `0.05`, a row with mean `0.05` is excluded, a
row with mean `1.0` and numerically nonzero variance is included, and
every constant row is excluded regardless of its mean. -/
theorem maf_cutoff_spec :
    (∀ (c : Rat) (row : List Rat), row ≠ [] →
      (MinorAlleleFrequencyCutoff.call ⟨c⟩ row = false ↔
        (list_mean row / 2 < c ∨ 1 - list_mean row / 2 < c
          ∨ |list_var row| ≤ 1 / 100000000)))
    ∧ (∀ row : List Rat, row ≠ [] → list_mean row = 1 / 20 →
        MinorAlleleFrequencyCutoff.call ⟨1 / 20⟩ row = false)
    ∧ (∀ row : List Rat, row ≠ [] → list_mean row = 1 →
        ¬(|list_var row| ≤ 1 / 100000000) →
        MinorAlleleFrequencyCutoff.call ⟨1 / 20⟩ row = true)
    ∧ (∀ (c x : Rat) (n : Nat), 0 < n →
        MinorAlleleFrequencyCutoff.call ⟨c⟩ (List.replicate n x) = false) := by
  have hiff : ∀ (c : Rat) (row : List Rat),
      MinorAlleleFrequencyCutoff.call ⟨c⟩ row = false ↔
        (list_mean row / 2 < c ∨ 1 - list_mean row / 2 < c
          ∨ |list_var row| ≤ 1 / 100000000) := by
    intro c row
    simp only [MinorAlleleFrequencyCutoff.call, np_isclose]
    simp
    constructor
    · intro h
      rcases lt_or_le (list_mean row / 2) c with h1 | h1
      · exact Or.inl h1
      rcases lt_or_le (1 - list_mean row / 2) c with h2 | h2
      · exact Or.inr (Or.inl h2)
      · exact Or.inr (Or.inr (h h1 h2))
    · intro h h1 h2
      rcases h with h | h | h
      · exact absurd h (not_lt.mpr h1)
      · exact absurd h (not_lt.mpr h2)
      · exact h
  refine ⟨fun c row _ => hiff c row, ?_, ?_, ?_⟩
  · intro row _ hmean
    refine (hiff _ _).mpr (Or.inl ?_)
    rw [hmean]; norm_num
  · intro row _ hmean hvar
    cases hcall : MinorAlleleFrequencyCutoff.call ⟨1 / 20⟩ row with
    | true => rfl
    | false =>
      exfalso
      rcases (hiff _ _).mp hcall with h | h | h
      · rw [hmean] at h; norm_num at h
      · rw [hmean] at h; norm_num at h
      · exact hvar h
  · intro c x n hn0
    have hn : (n : Rat) ≠ 0 := Nat.cast_ne_zero.mpr hn0.ne'
    have hm : list_mean (List.replicate n x) = x := by
      simp only [list_mean, List.sum_replicate, List.length_replicate,
        nsmul_eq_mul]
      exact mul_div_cancel_left₀ x hn
    have hv : list_var (List.replicate n x) = 0 := by
      simp [list_var, hm, List.map_replicate, List.sum_replicate]
    refine (hiff _ _).mpr (Or.inr (Or.inr ?_))
    rw [hv]; norm_num

/-- Witness for C8: the row `[0, 0.1]` has mean `0.05` and is excluded,
the row `[0.5, 1.5]` has mean `1.0` and nonzero variance `0.25` and is
included, the constant row `[0.7, 0.7]` is excluded. -/
theorem maf_cutoff_spec_witness :
    MinorAlleleFrequencyCutoff.call ⟨1 / 20⟩ [0, 1 / 10] = false
    ∧ MinorAlleleFrequencyCutoff.call ⟨1 / 20⟩ [1 / 2, 3 / 2] = true
    ∧ MinorAlleleFrequencyCutoff.call ⟨1 / 20⟩ [7 / 10, 7 / 10] = false :=
  ⟨maf_cutoff_spec.2.1 [0, 1 / 10] (by decide) (by norm_num [list_mean]),
   maf_cutoff_spec.2.2.1 [1 / 2, 3 / 2] (by decide) (by norm_num [list_mean])
     (by
       have h : list_var [1 / 2, 3 / 2] = 1 / 4 := by
         norm_num [list_var, list_mean]
       rw [h, abs_of_nonneg (by norm_num : (0 : Rat) ≤ 1 / 4)]
       norm_num),
   maf_cutoff_spec.2.2.2 (1 / 20) (7 / 10) 2 (by decide)⟩

/-- Every failure of `find_phenotype_index` is the label-not-found error. -/
theorem find_phenotype_index_error (phenotype_label : String)
    (phenotypes_list : List String) (e : PyExc)
    (h : find_phenotype_index phenotype_label phenotypes_list = .error e) :
    e = .valueError "phenotype label not found" := by
  unfold find_phenotype_index at h
  cases hidx : phenotypes_list.findIdx? (fun s => s = phenotype_label) with
  | none => rw [hidx] at h; simpa using h.symm
  | some i => rw [hidx] at h; simp at h

/-- C5: `create_dataframe_single_chr` fails with the invalid-data
`ValueError` exactly when the score array's row count differs from the
metadata table's row count; when they are equal, that error is never
raised. -/
theorem create_dataframe_single_chr_length_check :
    ∀ (chi2 : Rat → Rat → Rat) (metadata : List AxisMetadataRow)
      (phenotypes_list : List String) (b2_array : List (List Rat))
      (phenotype_label : String),
      (b2_array.length ≠ metadata.length →
        create_dataframe_single_chr chi2 metadata phenotypes_list b2_array
          phenotype_label = .error (.valueError length_mismatch_msg))
      ∧ (b2_array.length = metadata.length →
        create_dataframe_single_chr chi2 metadata phenotypes_list b2_array
          phenotype_label ≠ .error (.valueError length_mismatch_msg)) := by
  intro chi2 md ph arr lbl
  constructor
  · intro h
    simp [create_dataframe_single_chr, h]
  · intro h
    unfold create_dataframe_single_chr
    rw [if_neg (by simp [h])]
    cases hf : find_phenotype_index lbl ph with
    | error e =>
      have he := find_phenotype_index_error lbl ph e hf
      subst he
      simp [length_mismatch_msg]
    | ok p =>
      cases p with
      | mk u v => simp

/-- Witness for C5: a 1-row score array against empty metadata fails with
the invalid-data error. -/
theorem create_dataframe_single_chr_length_check_witness :
    create_dataframe_single_chr (fun _ _ => 0) [] [] [[1]] "p"
      = .error (.valueError length_mismatch_msg) :=
  (create_dataframe_single_chr_length_check (fun _ _ => 0) [] [] [[1]] "p").1
    (by decide)

/-- `mapExcept` preserves the task count on success. -/
theorem mapExcept_length (f : α → Except PyExc β) :
    ∀ (l : List α) (res : List β), mapExcept f l = .ok res →
      res.length = l.length := by
  intro l
  induction l with
  | nil => intro res h; simp [mapExcept] at h; simp [← h]
  | cons a t ih =>
    intro res h
    simp only [mapExcept] at h
    cases hf : f a with
    | error e => rw [hf] at h; simp at h
    | ok b =>
      rw [hf] at h
      cases ht : mapExcept f t with
      | error e => rw [ht] at h; simp at h
      | ok bs =>
        rw [ht] at h
        simp at h
        rw [← h]
        simp [ih bs ht]

/-- C6: `create_dataframe_all_chr` builds exactly the 23 per-chromosome
tasks `chr{C}.score.b2array` / `chr{C}.score.axis-metadata.pkl.zst` for
`C` in 1..22 then `"X"`, in that order, and returns the concatenation of
the 23 per-chromosome tables in that fixed order, so the combined row
count is the sum of the per-chromosome row counts. -/
theorem create_dataframe_all_chr_tasks_concat :
    ∀ (loader : String × String × String → Except PyExc (List ResultRow))
      (score_path metadata_path label : String) (dfs : List (List ResultRow)),
      mapExcept loader (all_chr_tasks score_path metadata_path label)
        = .ok dfs →
      create_dataframe_all_chr loader score_path metadata_path label
          = .ok dfs.flatten
      ∧ dfs.length = 23
      ∧ dfs.flatten.length = (dfs.map List.length).sum
      ∧ all_chr_tasks score_path metadata_path label =
          [(score_path ++ "/" ++ "chr1.score.b2array",
            metadata_path ++ "/" ++ "chr1.score.axis-metadata.pkl.zst", label),
           (score_path ++ "/" ++ "chr2.score.b2array",
            metadata_path ++ "/" ++ "chr2.score.axis-metadata.pkl.zst", label),
           (score_path ++ "/" ++ "chr3.score.b2array",
            metadata_path ++ "/" ++ "chr3.score.axis-metadata.pkl.zst", label),
           (score_path ++ "/" ++ "chr4.score.b2array",
            metadata_path ++ "/" ++ "chr4.score.axis-metadata.pkl.zst", label),
           (score_path ++ "/" ++ "chr5.score.b2array",
            metadata_path ++ "/" ++ "chr5.score.axis-metadata.pkl.zst", label),
           (score_path ++ "/" ++ "chr6.score.b2array",
            metadata_path ++ "/" ++ "chr6.score.axis-metadata.pkl.zst", label),
           (score_path ++ "/" ++ "chr7.score.b2array",
            metadata_path ++ "/" ++ "chr7.score.axis-metadata.pkl.zst", label),
           (score_path ++ "/" ++ "chr8.score.b2array",
            metadata_path ++ "/" ++ "chr8.score.axis-metadata.pkl.zst", label),
           (score_path ++ "/" ++ "chr9.score.b2array",
            metadata_path ++ "/" ++ "chr9.score.axis-metadata.pkl.zst", label),
           (score_path ++ "/" ++ "chr10.score.b2array",
            metadata_path ++ "/" ++ "chr10.score.axis-metadata.pkl.zst", label),
           (score_path ++ "/" ++ "chr11.score.b2array",
            metadata_path ++ "/" ++ "chr11.score.axis-metadata.pkl.zst", label),
           (score_path ++ "/" ++ "chr12.score.b2array",
            metadata_path ++ "/" ++ "chr12.score.axis-metadata.pkl.zst", label),
           (score_path ++ "/" ++ "chr13.score.b2array",
            metadata_path ++ "/" ++ "chr13.score.axis-metadata.pkl.zst", label),
           (score_path ++ "/" ++ "chr14.score.b2array",
            metadata_path ++ "/" ++ "chr14.score.axis-metadata.pkl.zst", label),
           (score_path ++ "/" ++ "chr15.score.b2array",
            metadata_path ++ "/" ++ "chr15.score.axis-metadata.pkl.zst", label),
           (score_path ++ "/" ++ "chr16.score.b2array",
            metadata_path ++ "/" ++ "chr16.score.axis-metadata.pkl.zst", label),
           (score_path ++ "/" ++ "chr17.score.b2array",
            metadata_path ++ "/" ++ "chr17.score.axis-metadata.pkl.zst", label),
           (score_path ++ "/" ++ "chr18.score.b2array",
            metadata_path ++ "/" ++ "chr18.score.axis-metadata.pkl.zst", label),
           (score_path ++ "/" ++ "chr19.score.b2array",
            metadata_path ++ "/" ++ "chr19.score.axis-metadata.pkl.zst", label),
           (score_path ++ "/" ++ "chr20.score.b2array",
            metadata_path ++ "/" ++ "chr20.score.axis-metadata.pkl.zst", label),
           (score_path ++ "/" ++ "chr21.score.b2array",
            metadata_path ++ "/" ++ "chr21.score.axis-metadata.pkl.zst", label),
           (score_path ++ "/" ++ "chr22.score.b2array",
            metadata_path ++ "/" ++ "chr22.score.axis-metadata.pkl.zst", label),
           (score_path ++ "/" ++ "chrX.score.b2array",
            metadata_path ++ "/" ++ "chrX.score.axis-metadata.pkl.zst", label)] := by
  intro loader sp mp lbl dfs h
  refine ⟨?_, ?_, List.length_flatten dfs, ?_⟩
  · unfold create_dataframe_all_chr
    rw [h]
  · rw [mapExcept_length loader _ _ h]
    rfl
  · rfl

/-- Witness for C6 with the trivial loader that returns one empty table
per chromosome. -/
theorem create_dataframe_all_chr_tasks_concat_witness :
    create_dataframe_all_chr (fun _ => .ok []) "s" "m" "l"
      = .ok (List.replicate 23 ([] : List ResultRow)).flatten :=
  (create_dataframe_all_chr_tasks_concat (fun _ => .ok []) "s" "m" "l"
    (List.replicate 23 []) (by rfl)).1

/-- Predicted cost is additive over list concatenation. -/
theorem chunk_cost_append (n_vcf_samples : Nat)
    (l1 l2 : List VariableCollection) :
    chunk_cost n_vcf_samples (l1 ++ l2)
      = chunk_cost n_vcf_samples l1 + chunk_cost n_vcf_samples l2 := by
  simp [chunk_cost]

/-- An initial segment of a chunk costs no more than the whole chunk. -/
theorem chunk_cost_take_le (n_vcf_samples : Nat)
    (c : List VariableCollection) (j : Nat) :
    chunk_cost n_vcf_samples (c.take j) ≤ chunk_cost n_vcf_samples c :=
  calc chunk_cost n_vcf_samples (c.take j)
      ≤ chunk_cost n_vcf_samples (c.take j) + chunk_cost n_vcf_samples (c.drop j) :=
        Nat.le_add_right _ _
    _ = chunk_cost n_vcf_samples (c.take j ++ c.drop j) :=
        (chunk_cost_append n_vcf_samples _ _).symm
    _ = chunk_cost n_vcf_samples c := by rw [List.take_append_drop]

/-- On success, the loop's output chunks concatenate to the already-closed
chunks, then the current chunk, then the collections not yet consumed. -/
theorem chunk_loop_flatten (n_vcf_samples available_size : Nat) :
    ∀ (rem current_chunk : List VariableCollection) (chunk_size : Nat)
      (chunks res : List (List VariableCollection)),
      chunk_loop n_vcf_samples available_size rem current_chunk chunk_size
        chunks = .ok res →
      res.flatten = chunks.flatten ++ current_chunk ++ rem := by
  intro rem
  induction rem with
  | nil =>
    intro current chunk_size chunks res h
    simp [chunk_loop] at h
    subst h
    simp
  | cons vc rest ih =>
    intro current chunk_size chunks res h
    simp only [chunk_loop] at h
    by_cases ha : available_size = 0
    · rw [if_pos ha] at h; simp at h
    · rw [if_neg ha] at h
      by_cases hc : available_size
          < 2 * (chunk_size + predicted_cost n_vcf_samples vc)
      · rw [if_pos hc] at h
        have := ih [] _ _ res h
        simp at this
        rw [this]
        simp
      · rw [if_neg hc] at h
        have := ih (current ++ [vc]) _ _ res h
        rw [this]
        simp

/-- Loop invariant for the amended C1: whenever the loop succeeds, every
already-closed chunk, and the chunk under construction, was never extended
past the point where the bound-tracking cost exceeded half the budget; the
tracked `chunk_size` dominates the current chunk's own cost. -/
theorem chunk_loop_take_bound (n_vcf_samples available_size : Nat) :
    ∀ (rem current_chunk : List VariableCollection) (chunk_size : Nat)
      (chunks res : List (List VariableCollection)),
      chunk_loop n_vcf_samples available_size rem current_chunk chunk_size
        chunks = .ok res →
      (∀ c ∈ chunks, ∀ j < c.length,
        2 * chunk_cost n_vcf_samples (c.take j) ≤ available_size) →
      chunk_cost n_vcf_samples current_chunk ≤ chunk_size →
      (current_chunk ≠ [] → 2 * chunk_size ≤ available_size) →
      ∀ c ∈ res, ∀ j < c.length,
        2 * chunk_cost n_vcf_samples (c.take j) ≤ available_size := by
  intro rem
  induction rem with
  | nil =>
    intro current chunk_size chunks res h hchunks hcur hle c hc j hj
    simp [chunk_loop] at h
    subst h
    rcases List.mem_append.mp hc with hmem | hmem
    · exact hchunks c hmem j hj
    · have hcc : c = current := by simpa using hmem
      subst hcc
      have hne : c ≠ [] := by
        intro he
        rw [he] at hj
        simp at hj
      calc 2 * chunk_cost n_vcf_samples (c.take j)
          ≤ 2 * chunk_size :=
            Nat.mul_le_mul_left 2 ((chunk_cost_take_le _ _ _).trans hcur)
        _ ≤ available_size := hle hne
  | cons vc rest ih =>
    intro current chunk_size chunks res h hchunks hcur hle
    simp only [chunk_loop] at h
    by_cases ha : available_size = 0
    · rw [if_pos ha] at h; simp at h
    · rw [if_neg ha] at h
      by_cases hc : available_size
          < 2 * (chunk_size + predicted_cost n_vcf_samples vc)
      · rw [if_pos hc] at h
        refine ih [] _ _ res h ?_ (by simp [chunk_cost]) (by simp)
        intro c hcmem j hj
        rcases List.mem_append.mp hcmem with hmem | hmem
        · exact hchunks c hmem j hj
        · have hcc : c = current ++ [vc] := by simpa using hmem
          subst hcc
          have hjle : j ≤ current.length := by
            simp at hj
            omega
          rw [List.take_append_of_le_length hjle]
          by_cases hne : current = []
          · subst hne
            simp at hjle
            subst hjle
            simp [chunk_cost]
          · calc 2 * chunk_cost n_vcf_samples (current.take j)
                ≤ 2 * chunk_size :=
                  Nat.mul_le_mul_left 2 ((chunk_cost_take_le _ _ _).trans hcur)
              _ ≤ available_size := hle hne
      · rw [if_neg hc] at h
        refine ih (current ++ [vc]) _ _ res h hchunks ?_ fun _ => ?_
        · rw [chunk_cost_append]
          have : chunk_cost n_vcf_samples [vc]
              = predicted_cost n_vcf_samples vc := by simp [chunk_cost]
          omega
        · omega

/-- The loop never fails when the available budget is nonzero. -/
theorem chunk_loop_total (n_vcf_samples available_size : Nat)
    (ha : available_size ≠ 0) :
    ∀ (rem current_chunk : List VariableCollection) (chunk_size : Nat)
      (chunks : List (List VariableCollection)),
      ∃ res, chunk_loop n_vcf_samples available_size rem current_chunk
        chunk_size chunks = .ok res := by
  intro rem
  induction rem with
  | nil => intro current chunk_size chunks; exact ⟨chunks ++ [current], rfl⟩
  | cons vc rest ih =>
    intro current chunk_size chunks
    simp only [chunk_loop]
    rw [if_neg ha]
    by_cases hc : available_size
        < 2 * (chunk_size + predicted_cost n_vcf_samples vc)
    · rw [if_pos hc]; exact ih [] _ _
    · rw [if_neg hc]; exact ih _ _ _

/-- C1 counterexample: `chunk_size` is never reset when a chunk closes, so
the code's chunking differs from the claimed reset-per-chunk semantics.
With budget `available_size = 800 / 8 = 100` and popped costs 60, 10, 10
(the list is popped from the end), the code closes a singleton chunk at
every step once the global accumulated cost exceeds 50 and appends a
trailing empty chunk, while the claimed semantics groups the two cheap
collections together. -/
theorem chunking_reset_counterexample :
    run_chunking 1 800 [⟨10, 0⟩, ⟨10, 0⟩, ⟨60, 0⟩]
        = .ok [[⟨60, 0⟩], [⟨10, 0⟩], [⟨10, 0⟩], []]
    ∧ run_chunking_reset 1 800 [⟨10, 0⟩, ⟨10, 0⟩, ⟨60, 0⟩]
        = .ok [[⟨60, 0⟩], [⟨10, 0⟩, ⟨10, 0⟩]]
    ∧ run_chunking 1 800 [⟨10, 0⟩, ⟨10, 0⟩, ⟨60, 0⟩]
        ≠ run_chunking_reset 1 800 [⟨10, 0⟩, ⟨10, 0⟩, ⟨60, 0⟩] := by
  refine ⟨by decide, by decide, by decide⟩

/-- C1 (amended): the accumulated `chunk_size` is global, never reset
between chunks; still, because closing happens as soon as the global
accumulated cost exceeds half the budget, no produced chunk was ever
extended past the point where its own accumulated predicted cost first
exceeded 50% of the available budget — every proper initial segment of
every chunk has cost at most half the budget. -/
theorem chunking_no_overextension :
    ∀ (n_vcf_samples unallocated_size : Nat)
      (vcs : List VariableCollection)
      (chunks : List (List VariableCollection)),
      run_chunking n_vcf_samples unallocated_size vcs = .ok chunks →
      ∀ c ∈ chunks, ∀ j < c.length,
        2 * chunk_cost n_vcf_samples (c.take j) ≤ unallocated_size / 8 := by
  intro n u vcs chunks h
  refine chunk_loop_take_bound n (u / 8) vcs.reverse [] 0 [] chunks h
    (by simp) (by simp [chunk_cost]) (by simp)

/-- Witness for the amended C1 at the counterexample input. -/
theorem chunking_no_overextension_witness :
    2 * chunk_cost 1 (([⟨60, 0⟩] : List VariableCollection).take 0)
      ≤ 800 / 8 :=
  chunking_no_overextension 1 800 [⟨10, 0⟩, ⟨10, 0⟩, ⟨60, 0⟩]
    [[⟨60, 0⟩], [⟨10, 0⟩], [⟨10, 0⟩], []] (by decide)
    [⟨60, 0⟩] (by decide) 0 (by decide)

/-- C2 counterexample: a list sorted by descending phenotype count is
consumed by `pop()` from the END, so the concatenation of the produced
chunks is NOT in the input's descending order. -/
theorem chunking_order_counterexample :
    List.Sorted
      (fun a b : VariableCollection => b.phenotype_count ≤ a.phenotype_count)
      [⟨1, 2⟩, ⟨1, 1⟩]
    ∧ run_chunking 1 8000000 [⟨1, 2⟩, ⟨1, 1⟩] = .ok [[⟨1, 1⟩, ⟨1, 2⟩]]
    ∧ ([[⟨1, 1⟩, ⟨1, 2⟩]] : List (List VariableCollection)).flatten
        ≠ [⟨1, 2⟩, ⟨1, 1⟩] := by
  refine ⟨by decide, by decide, by decide⟩

/-- C2 (amended): whenever the chunking loop succeeds, the concatenation
of the produced chunks is exactly the REVERSAL of the input list — the
collections are consumed in ascending phenotype-count order when the
input was sorted descending, because `pop()` removes the last element. -/
theorem chunking_join_eq_reverse :
    ∀ (n_vcf_samples unallocated_size : Nat)
      (vcs : List VariableCollection)
      (chunks : List (List VariableCollection)),
      run_chunking n_vcf_samples unallocated_size vcs = .ok chunks →
      chunks.flatten = vcs.reverse := by
  intro n u vcs chunks h
  have := chunk_loop_flatten n (u / 8) vcs.reverse [] 0 [] chunks h
  simpa using this

/-- Witness for the amended C2 at a concrete two-element input. -/
theorem chunking_join_eq_reverse_witness :
    ([[⟨1, 1⟩, ⟨1, 2⟩]] : List (List VariableCollection)).flatten
      = ([⟨1, 2⟩, ⟨1, 1⟩] : List VariableCollection).reverse :=
  chunking_join_eq_reverse 1 8000000 [⟨1, 2⟩, ⟨1, 1⟩] [[⟨1, 1⟩, ⟨1, 2⟩]]
    (by decide)

/-- C9: the chunking loop divides by `available_size = unallocated_size / 8`
with no zero guard.  With at least one variable collection, the loop is
division-safe iff the workspace's unallocated byte capacity is at least 8:
below 8 the first iteration's division raises `ZeroDivisionError`; at 8 or
above the loop always succeeds; with no collections the loop body never
runs, so no division happens. -/
theorem chunking_division_totality :
    ∀ (n_vcf_samples unallocated_size : Nat)
      (vcs : List VariableCollection),
      (unallocated_size < 8 → vcs ≠ [] →
        run_chunking n_vcf_samples unallocated_size vcs
          = .error PyExc.zeroDivisionError)
      ∧ (8 ≤ unallocated_size →
        ∃ chunks, run_chunking n_vcf_samples unallocated_size vcs
          = .ok chunks)
      ∧ run_chunking n_vcf_samples unallocated_size [] = .ok [[]] := by
  intro n u vcs
  refine ⟨fun hu hne => ?_, fun hu => ?_, rfl⟩
  · have hdiv : u / 8 = 0 := Nat.div_eq_of_lt hu
    have hrev : vcs.reverse ≠ [] := by simpa using hne
    unfold run_chunking
    rw [hdiv]
    cases hr : vcs.reverse with
    | nil => exact absurd hr hrev
    | cons vc rest => simp [chunk_loop]
  · have hpos : u / 8 ≠ 0 := Nat.pos_iff_ne_zero.mp (Nat.div_pos hu (by omega))
    exact chunk_loop_total n (u / 8) hpos vcs.reverse [] 0 []

/-- Witness for C9: capacity 7 fails on one collection, capacity 8
succeeds, the empty list never divides. -/
theorem chunking_division_totality_witness :
    run_chunking 1 7 [⟨1, 1⟩] = .error PyExc.zeroDivisionError
    ∧ (∃ chunks, run_chunking 1 8 [⟨1, 1⟩] = .ok chunks) :=
  ⟨(chunking_division_totality 1 7 [⟨1, 1⟩]).1 (by decide) (by decide),
   (chunking_division_totality 1 8 [⟨1, 1⟩]).2.1 (by decide)⟩
